import Mathlib

/-!
Verification development for the Syncthing integration plugin.

The REST client (SyncthingFromREST), the diff modal click handlers
(DiffModal.onOpen) and the conflict files modal (ConflictFilesModal.onOpen)
are embedded shallowly below. HTTP transport and the vault are passed in
explicitly; promise-returning vault calls are recorded together with the
fact whether the handler awaits them.
-/

namespace SyncthingSpec

/-- Minimal JSON value type standing for daemon response bodies. -/
inductive Json where
  | null : Json
  | str : String → Json
  | num : Int → Json
  | bool : Bool → Json
  | arr : List Json → Json
  | obj : List (String × Json) → Json

/-- Field access `json[key]` on a response body: some value when the body is an
object with that key, none (undefined) otherwise. -/
def jsonGet : Json → String → Option Json
  | .obj fields, key => (fields.find? (fun kv => kv.fst == key)).map Prod.snd
  | _, _ => none

/-- Modelled from the spec: src/models/failures.ts is not among the given
sources. The spec defines Failure as a tagged value carrying a kind
(transport, validation, not-found, filesystem) and a human-readable message.
The RestFailure throw sites in the REST client map to the transport kind in
requestEndpoint and to the validation kind at the schema-parse sites. -/
inductive FailureKind where
  | transport
  | validation
  | notFound
  | filesystem
deriving DecidableEq

/-- A typed failure: kind plus message. -/
structure Failure where
  kind : FailureKind
  message : String
deriving DecidableEq

/-- A validation issue as produced by valibot safeParseAsync; the client only
reads the message field. -/
structure Issue where
  message : String
deriving DecidableEq

/-- Result of valibot safeParseAsync: success carrying the typed output, or
failure carrying the list of issues. The valibot schemas live in
src/models/entities.ts, which is not among the given sources, so every parse
step below is taken as a function parameter of this shape. -/
inductive SafeParseResult (α : Type) where
  | success (output : α)
  | failure (issues : List Issue)

/-- Modelled from the spec: a device entry of a folder, carrying a deviceID. -/
structure FolderDeviceRef where
  deviceID : String
deriving DecidableEq

/-- Modelled from the spec: a Syncthing folder with id, path and member
device list. -/
structure SyncthingFolder where
  id : String
  path : String
  devices : List FolderDeviceRef
deriving DecidableEq

/-- Modelled from the spec: a Syncthing device with deviceID and name. -/
structure SyncthingDevice where
  deviceID : String
  name : String
deriving DecidableEq

/-- Modelled from the spec: the daemon configuration, declared folders and
devices. -/
structure SyncthingConfiguration where
  folders : List SyncthingFolder
  devices : List SyncthingDevice
deriving DecidableEq

/-- Modelled from the spec: the system status, including the own device ID. -/
structure SyncthingSystemStatus where
  myID : String
deriving DecidableEq

/-- An HTTP response as seen by requestEndpoint: status, body text and parsed
JSON body. -/
structure HttpResponse where
  status : Nat
  text : String
  json : Json

/-- Outcome of one HTTP request: a network error with its error text, or a
response. -/
inductive HttpOutcome where
  | networkError (errText : String)
  | response (resp : HttpResponse)

/-- URL construction of requestEndpoint: protocol://ip:port followed by the
endpoint, substituting the numeric loopback address when the configured host
is the symbolic loopback name and the client runs on the mobile platform. -/
def buildUrl (protocol ip_address port endpoint : String)
    (isMobileApp : Bool) : String :=
  let ip := if ip_address == "localhost" && isMobileApp then "127.0.0.1"
    else ip_address
  protocol ++ "://" ++ ip ++ ":" ++ port ++ endpoint

/-- requestEndpoint of SyncthingFromREST: issues one GET for the endpoint;
a response whose status is at least 400 is turned into a thrown RestFailure
carrying the response body text, and a network error into a thrown
RestFailure carrying the error text. Both throw sites are transport
failures. On success the response is returned unparsed. -/
def requestEndpoint (env : String → HttpOutcome) (endpoint : String) :
    Except Failure HttpResponse :=
  match env endpoint with
  | .networkError e => .error ⟨.transport, e⟩
  | .response r =>
    if 400 ≤ r.status then .error ⟨.transport, r.text⟩
    else .ok r

/-- The message of a validation failure: the issue messages joined with a
newline, as in result.issues.map getting message, joined. -/
def joinIssues (issues : List Issue) : String :=
  String.intercalate "\n" (issues.map Issue.message)

/-- ping of SyncthingFromREST: requests /rest/system/ping and returns the
ping field of the JSON body without any schema validation. The second
component is the list of endpoints requested (exactly one). -/
def ping (env : String → HttpOutcome) :
    Except Failure (Option Json) × List String :=
  ((match requestEndpoint env "/rest/system/ping" with
    | .error f => .error f
    | .ok r => .ok (jsonGet r.json "ping")),
   ["/rest/system/ping"])

/-- getAllFolders of SyncthingFromREST: requests /rest/config/folders, parses
the body against the folder array schema, throws a validation failure with
the joined issue messages when parsing fails, and returns the parsed output
otherwise. The second component is the list of endpoints requested. -/
def getAllFolders (p : Json → SafeParseResult (List SyncthingFolder))
    (env : String → HttpOutcome) :
    Except Failure (List SyncthingFolder) × List String :=
  ((match requestEndpoint env "/rest/config/folders" with
    | .error f => .error f
    | .ok r =>
      match p r.json with
      | .success output => .ok output
      | .failure issues => .error ⟨.validation, joinIssues issues⟩),
   ["/rest/config/folders"])

/-- getFoldersForDevice of SyncthingFromREST: calls getAllFolders and keeps
the folders whose device list has an entry with the deviceID of the given
device; it performs no request of its own. -/
def getFoldersForDevice (p : Json → SafeParseResult (List SyncthingFolder))
    (env : String → HttpOutcome) (device : SyncthingDevice) :
    Except Failure (List SyncthingFolder) × List String :=
  let res := getAllFolders p env
  ((match res.fst with
    | .error f => .error f
    | .ok folders =>
      .ok (folders.filter (fun folder =>
        folder.devices.any (fun dInF => dInF.deviceID == device.deviceID)))),
   res.snd)

/-- getDevices of SyncthingFromREST: requests /rest/config/devices, parses
against the device array schema, throws a validation failure with the joined
issue messages on mismatch. -/
def getDevices (p : Json → SafeParseResult (List SyncthingDevice))
    (env : String → HttpOutcome) :
    Except Failure (List SyncthingDevice) × List String :=
  ((match requestEndpoint env "/rest/config/devices" with
    | .error f => .error f
    | .ok r =>
      match p r.json with
      | .success output => .ok output
      | .failure issues => .error ⟨.validation, joinIssues issues⟩),
   ["/rest/config/devices"])

/-- getConfiguration of SyncthingFromREST: requests /rest/config, parses
against the configuration schema, throws a validation failure with the
joined issue messages on mismatch. -/
def getConfiguration (p : Json → SafeParseResult SyncthingConfiguration)
    (env : String → HttpOutcome) :
    Except Failure SyncthingConfiguration × List String :=
  ((match requestEndpoint env "/rest/config" with
    | .error f => .error f
    | .ok r =>
      match p r.json with
      | .success output => .ok output
      | .failure issues => .error ⟨.validation, joinIssues issues⟩),
   ["/rest/config"])

/-- getSystemStatus of SyncthingFromREST: requests /rest/system/status,
parses against the system status schema, throws a validation failure with
the joined issue messages on mismatch. -/
def getSystemStatus (p : Json → SafeParseResult SyncthingSystemStatus)
    (env : String → HttpOutcome) :
    Except Failure SyncthingSystemStatus × List String :=
  ((match requestEndpoint env "/rest/system/status" with
    | .error f => .error f
    | .ok r =>
      match p r.json with
      | .success output => .ok output
      | .failure issues => .error ⟨.validation, joinIssues issues⟩),
   ["/rest/system/status"])

/-- A transport-level failure of the outcome at an endpoint: a network error
with the given text, or a response with status at least 400 whose body text
is the given text. -/
def transportFails (env : String → HttpOutcome) (endpoint msg : String) :
    Prop :=
  env endpoint = .networkError msg ∨
  ∃ r, env endpoint = .response r ∧ 400 ≤ r.status ∧ r.text = msg

theorem requestEndpoint_transport (env : String → HttpOutcome)
    (endpoint msg : String) (h : transportFails env endpoint msg) :
    requestEndpoint env endpoint = .error ⟨.transport, msg⟩ := by
  rcases h with h | ⟨r, hr, hst, htext⟩
  · simp [requestEndpoint, h]
  · simp [requestEndpoint, hr, hst, htext]

/-- Fixture: an environment whose every request yields a 200 response with an
empty-object body. -/
def envEmptyBody : String → HttpOutcome :=
  fun _ => .response ⟨200, "", .obj []⟩

/-- Fixture: a parse step that rejects every body with one issue. -/
def alwaysFailParse (α : Type) : Json → SafeParseResult α :=
  fun _ => .failure [⟨"Invalid type"⟩]

/-- Fixture: an environment whose every request yields a 403 response with a
CSRF error body. -/
def env403 : String → HttpOutcome :=
  fun _ => .response ⟨403, "CSRF Error", .null⟩

/-- Claim C1: for each of getAllFolders, getDevices, getConfiguration and
getSystemStatus, when the transport delivers a response (status below 400)
whose body fails schema validation, the method yields a Failure of kind
validation whose message is the joined list of the issue messages, and hence
returns no (partially populated) domain object. -/
theorem rest_validation_failfast
    (env : String → HttpOutcome) (r : HttpResponse) (issues : List Issue)
    (hstatus : r.status < 400) :
    (∀ p, env "/rest/config/folders" = .response r →
      p r.json = .failure issues →
      (getAllFolders p env).fst = .error ⟨.validation, joinIssues issues⟩) ∧
    (∀ p, env "/rest/config/devices" = .response r →
      p r.json = .failure issues →
      (getDevices p env).fst = .error ⟨.validation, joinIssues issues⟩) ∧
    (∀ p, env "/rest/config" = .response r →
      p r.json = .failure issues →
      (getConfiguration p env).fst =
        .error ⟨.validation, joinIssues issues⟩) ∧
    (∀ p, env "/rest/system/status" = .response r →
      p r.json = .failure issues →
      (getSystemStatus p env).fst =
        .error ⟨.validation, joinIssues issues⟩) := by
  have hlt : ¬ 400 ≤ r.status := by omega
  refine ⟨?_, ?_, ?_, ?_⟩ <;>
    intro p henv hparse <;>
    simp [getAllFolders, getDevices, getConfiguration, getSystemStatus,
      requestEndpoint, henv, hlt, hparse]

/-- Witness for claim C1 at a concrete environment and parse step. -/
theorem rest_validation_failfast_witness :
    (getAllFolders (alwaysFailParse (List SyncthingFolder))
      envEmptyBody).fst =
        .error ⟨.validation, joinIssues [⟨"Invalid type"⟩]⟩ ∧
    (getDevices (alwaysFailParse (List SyncthingDevice))
      envEmptyBody).fst =
        .error ⟨.validation, joinIssues [⟨"Invalid type"⟩]⟩ ∧
    (getConfiguration (alwaysFailParse SyncthingConfiguration)
      envEmptyBody).fst =
        .error ⟨.validation, joinIssues [⟨"Invalid type"⟩]⟩ ∧
    (getSystemStatus (alwaysFailParse SyncthingSystemStatus)
      envEmptyBody).fst =
        .error ⟨.validation, joinIssues [⟨"Invalid type"⟩]⟩ := by
  have h := rest_validation_failfast envEmptyBody ⟨200, "", .obj []⟩
    [⟨"Invalid type"⟩] (by decide)
  exact ⟨h.1 _ rfl rfl, h.2.1 _ rfl rfl, h.2.2.1 _ rfl rfl,
    h.2.2.2 _ rfl rfl⟩

/-- Claim C2: every client method turns a transport failure at its endpoint
(network error, or response status at least 400 such as 403) into a Failure
of kind transport carrying the error text or the response body text, returns
no data, and requests its endpoint exactly once, with no retry. -/
theorem rest_transport_failure_all_methods
    (env : String → HttpOutcome) (msg : String) :
    (transportFails env "/rest/system/ping" msg →
      (ping env).fst = .error ⟨.transport, msg⟩ ∧
      (ping env).snd = ["/rest/system/ping"]) ∧
    (transportFails env "/rest/config/folders" msg →
      ∀ p, (getAllFolders p env).fst = .error ⟨.transport, msg⟩ ∧
        (getAllFolders p env).snd = ["/rest/config/folders"]) ∧
    (transportFails env "/rest/config/folders" msg →
      ∀ p device,
        (getFoldersForDevice p env device).fst =
          .error ⟨.transport, msg⟩ ∧
        (getFoldersForDevice p env device).snd =
          ["/rest/config/folders"]) ∧
    (transportFails env "/rest/config/devices" msg →
      ∀ p, (getDevices p env).fst = .error ⟨.transport, msg⟩ ∧
        (getDevices p env).snd = ["/rest/config/devices"]) ∧
    (transportFails env "/rest/config" msg →
      ∀ p, (getConfiguration p env).fst = .error ⟨.transport, msg⟩ ∧
        (getConfiguration p env).snd = ["/rest/config"]) ∧
    (transportFails env "/rest/system/status" msg →
      ∀ p, (getSystemStatus p env).fst = .error ⟨.transport, msg⟩ ∧
        (getSystemStatus p env).snd = ["/rest/system/status"]) := by
  refine ⟨fun h => ?_, fun h p => ?_, fun h p device => ?_,
    fun h p => ?_, fun h p => ?_, fun h p => ?_⟩ <;>
    simp [ping, getAllFolders, getFoldersForDevice, getDevices,
      getConfiguration, getSystemStatus, requestEndpoint_transport _ _ _ h]

/-- Witness for claim C2 at a concrete 403 environment, for every method. -/
theorem rest_transport_failure_all_methods_witness :
    (ping env403).fst = .error ⟨.transport, "CSRF Error"⟩ ∧
    (getAllFolders (alwaysFailParse (List SyncthingFolder)) env403).fst =
      .error ⟨.transport, "CSRF Error"⟩ ∧
    (getFoldersForDevice (alwaysFailParse (List SyncthingFolder)) env403
      ⟨"DEV1", "laptop"⟩).fst = .error ⟨.transport, "CSRF Error"⟩ ∧
    (getDevices (alwaysFailParse (List SyncthingDevice)) env403).fst =
      .error ⟨.transport, "CSRF Error"⟩ ∧
    (getConfiguration (alwaysFailParse SyncthingConfiguration) env403).fst =
      .error ⟨.transport, "CSRF Error"⟩ ∧
    (getSystemStatus (alwaysFailParse SyncthingSystemStatus) env403).fst =
      .error ⟨.transport, "CSRF Error"⟩ ∧
    (ping env403).snd = ["/rest/system/ping"] := by
  have hfails : ∀ endpoint, transportFails env403 endpoint "CSRF Error" :=
    fun endpoint => Or.inr ⟨⟨403, "CSRF Error", .null⟩, rfl, by decide, rfl⟩
  have h := rest_transport_failure_all_methods env403 "CSRF Error"
  exact ⟨(h.1 (hfails _)).1,
    (h.2.1 (hfails _) _).1,
    (h.2.2.1 (hfails _) _ _).1,
    (h.2.2.2.1 (hfails _) _).1,
    (h.2.2.2.2.1 (hfails _) _).1,
    (h.2.2.2.2.2 (hfails _) _).1,
    (h.1 (hfails _)).2⟩

/-- Claim C6: getFoldersForDevice requests exactly the endpoint of
getAllFolders (one request, nothing of its own) and its value is the
getAllFolders value filtered to the folders whose device list contains an
entry with the deviceID of the given device. -/
theorem getFoldersForDevice_derived
    (p : Json → SafeParseResult (List SyncthingFolder))
    (env : String → HttpOutcome) (device : SyncthingDevice) :
    (getFoldersForDevice p env device).snd = ["/rest/config/folders"] ∧
    (getFoldersForDevice p env device).snd = (getAllFolders p env).snd ∧
    (getFoldersForDevice p env device).fst =
      (getAllFolders p env).fst.map (fun folders =>
        folders.filter (fun folder =>
          folder.devices.any (fun dInF =>
            dInF.deviceID == device.deviceID))) := by
  refine ⟨rfl, rfl, ?_⟩
  cases h : (getAllFolders p env).fst <;>
    simp [getFoldersForDevice, h, Except.map]

/-- Claim C5 counterexample: a 200 response whose body is the empty JSON
object does not match the ping schema (the literal pong under the ping
field), yet ping returns ok with no value (the undefined field) instead of
raising a typed Failure: ping performs no schema validation. -/
theorem ping_no_validation_counterexample :
    (ping envEmptyBody).fst = .ok none := rfl

/-- Fixture: an environment answering every request with a 200 response whose
body is the object with ping set to pong. -/
def envPong : String → HttpOutcome :=
  fun _ => .response ⟨200, "", .obj [("ping", .str "pong")]⟩

/-- Claim C5 as amended: getAllFolders, getDevices, getConfiguration and
getSystemStatus validate the JSON body against the resource schema before
returning (parsed output on success, validation Failure on mismatch), and
transport failures raise a typed transport Failure for every method
including ping; but ping itself performs no schema validation: on any
response with status below 400 it returns the ping field of the body as is,
so a conforming body yields the string pong. -/
theorem rest_validation_amended
    (env : String → HttpOutcome) (r : HttpResponse) (msg : String)
    (hstatus : r.status < 400) :
    (∀ p output, env "/rest/config/folders" = .response r →
      p r.json = .success output →
      (getAllFolders p env).fst = .ok output) ∧
    (∀ p issues, env "/rest/config/folders" = .response r →
      p r.json = .failure issues →
      (getAllFolders p env).fst =
        .error ⟨.validation, joinIssues issues⟩) ∧
    (∀ p output, env "/rest/config/devices" = .response r →
      p r.json = .success output →
      (getDevices p env).fst = .ok output) ∧
    (∀ p output, env "/rest/config" = .response r →
      p r.json = .success output →
      (getConfiguration p env).fst = .ok output) ∧
    (∀ p output, env "/rest/system/status" = .response r →
      p r.json = .success output →
      (getSystemStatus p env).fst = .ok output) ∧
    (env "/rest/system/ping" = .response r →
      (ping env).fst = .ok (jsonGet r.json "ping")) ∧
    (transportFails env "/rest/system/ping" msg →
      (ping env).fst = .error ⟨.transport, msg⟩) := by
  have hlt : ¬ 400 ≤ r.status := by omega
  refine ⟨fun p output henv hparse => ?_, fun p issues henv hparse => ?_,
    fun p output henv hparse => ?_, fun p output henv hparse => ?_,
    fun p output henv hparse => ?_, fun henv => ?_, fun h => ?_⟩
  · simp [getAllFolders, requestEndpoint, henv, hlt, hparse]
  · simp [getAllFolders, requestEndpoint, henv, hlt, hparse]
  · simp [getDevices, requestEndpoint, henv, hlt, hparse]
  · simp [getConfiguration, requestEndpoint, henv, hlt, hparse]
  · simp [getSystemStatus, requestEndpoint, henv, hlt, hparse]
  · simp [ping, requestEndpoint, henv, hlt]
  · simp [ping, requestEndpoint_transport _ _ _ h]

/-- Witness for the amended claim C5: on the pong environment, ping yields
the string pong; on the failing parse, getAllFolders yields the validation
failure. -/
theorem rest_validation_amended_witness :
    (ping envPong).fst = .ok (some (.str "pong")) ∧
    (getAllFolders (alwaysFailParse (List SyncthingFolder)) envPong).fst =
      .error ⟨.validation, joinIssues [⟨"Invalid type"⟩]⟩ := by
  have h := rest_validation_amended envPong
    ⟨200, "", .obj [("ping", .str "pong")]⟩ "" (by decide)
  exact ⟨h.2.2.2.2.2.1 rfl, h.2.1 _ _ rfl rfl⟩

/-- File metadata as in TFile.stat: last modified time in milliseconds and
size in bytes. -/
structure FileStat where
  mtime : Int
  size : Nat
deriving DecidableEq

/-- A vault file handle as used by the modals: path, base name and stat. -/
structure TFile where
  path : String
  basename : String
  stat : FileStat
deriving DecidableEq

/-- The sort in DiffModal.onOpen: conflictingFiles.sort with the numeric
comparator on stat.mtime, i.e. a stable sort ascending by last modified
time. -/
def sortConflictingFiles (files : List TFile) : List TFile :=
  files.mergeSort (fun a b => a.stat.mtime ≤ b.stat.mtime)

/-- Claim C8: the conflicting files list shown by the diff modal is sorted by
last modified time ascending and is a permutation of the input list; being a
function of the input list, the ordering is deterministic. -/
theorem conflicting_files_sorted (files : List TFile) :
    List.Sorted (fun a b => a.stat.mtime ≤ b.stat.mtime)
      (sortConflictingFiles files) ∧
    (sortConflictingFiles files).Perm files := by
  constructor
  · have h := @List.sorted_mergeSort TFile
      (fun a b => decide (a.stat.mtime ≤ b.stat.mtime))
      (fun a b c hab hbc => by
        simp only [decide_eq_true_eq] at hab hbc ⊢
        exact le_trans hab hbc)
      (fun a b => by
        simp only [Bool.or_eq_true, decide_eq_true_eq]
        exact le_total a.stat.mtime b.stat.mtime)
      files
    exact List.Pairwise.imp (by simp) h
  · exact List.mergeSort_perm files _

/-- A vault mutation issued by a click handler of the diff modal. -/
inductive VaultOp where
  | deleteFile (path : String)
  | renameFile (oldPath : String) (newPath : String)
deriving DecidableEq

/-- One promise-returning call as issued by a click handler, together with
whether the handler awaits its completion before continuing. Neither button
handler of DiffModal.onOpen awaits any of its calls. -/
structure IssuedOp where
  op : VaultOp
  awaited : Bool
deriving DecidableEq

/-- Observable behaviour of one run of a click handler: the vault operations
issued in program order, the notices emitted or scheduled, and the failure
value the handler surfaces to its caller, if any. -/
structure HandlerRun where
  ops : List IssuedOp
  notices : List String
  reported : Option Failure
deriving DecidableEq

/-- The Accept left onClick of DiffModal.onOpen: emits the notices, calls
vault.delete on the original file and then fileManager.renameFile of the
current conflict file to the original path, both without await, attaches no
rejection handler, and returns without constructing any Failure. The two
outcome arguments stand for the eventual results of the two promises; the
handler never observes them, so the run is the same for every outcome. -/
def acceptLeft (originalPath conflictPath : String)
    (_deleteSucceeds _renameSucceeds : Bool) : HandlerRun :=
  ⟨[⟨.deleteFile originalPath, false⟩,
    ⟨.renameFile conflictPath originalPath, false⟩],
   ["Resolving conflict : Accepting left",
    "Deleting " ++ originalPath ++ "...",
    "Renaming " ++ conflictPath ++ " to " ++ originalPath ++ "...",
    "Conflict resolved : Accepted left"],
   none⟩

/-- The Accept original onClick of DiffModal.onOpen: emits the notices and
calls vault.delete on the current conflict file, without await; no other
vault operation is issued. -/
def acceptOriginal (conflictPath : String) : HandlerRun :=
  ⟨[⟨.deleteFile conflictPath, false⟩],
   ["Resolving conflict : Accepting original",
    "Deleting " ++ conflictPath ++ "..."],
   none⟩

/-- Claim C3, evaluation at the failing input: the Accept left handler
issues the delete of the original path first and the rename second, but the
delete is issued with awaited = false (there is no await in the handler), so
the code does not make the delete complete before the rename is issued. -/
theorem acceptLeft_delete_not_awaited :
    (acceptLeft "note.md" "note.sync-conflict-20240101-113000-ABCDEF.md"
      true true).ops =
      [⟨.deleteFile "note.md", false⟩,
       ⟨.renameFile "note.sync-conflict-20240101-113000-ABCDEF.md"
         "note.md", false⟩] := rfl

/-- Claim C4, evaluation at the failing input: on a run where the delete of
the original succeeds and the rename of the conflict file fails, the Accept
left handler reports no Failure at all (it has no rejection handling and no
filesystem Failure construction), and its notice list still ends with the
unconditional success notice. -/
theorem acceptLeft_rename_failure_unreported :
    (acceptLeft "note.md" "note.sync-conflict-20240101-113000-ABCDEF.md"
      true false).reported = none ∧
    (acceptLeft "note.md" "note.sync-conflict-20240101-113000-ABCDEF.md"
      true false).notices.getLast? =
      some "Conflict resolved : Accepted left" := ⟨rfl, rfl⟩

/-- The vault as a map from path to file data: content plus stat. -/
abbrev VaultState := String → Option (String × FileStat)

/-- Effect of one vault operation on the vault state: delete removes the
entry at the path; rename moves the entry at the old path to the new path. -/
def applyOp (s : VaultState) : VaultOp → VaultState
  | .deleteFile p => fun q => if q = p then none else s q
  | .renameFile oldPath newPath => fun q =>
      if q = newPath then s oldPath
      else if q = oldPath then none
      else s q

/-- Effect of a list of issued operations, applied in order. -/
def applyOps (s : VaultState) : List IssuedOp → VaultState
  | [] => s
  | o :: rest => applyOps (applyOp s o.op) rest

/-- Claim C7: the Accept original handler deletes exactly the chosen
conflicting file: after its operations the conflict path is gone, the
original file entry (content and stat at the original path) is unchanged,
and so is every other path. -/
theorem acceptOriginal_frame (s : VaultState)
    (originalPath conflictPath : String)
    (h : originalPath ≠ conflictPath) :
    (acceptOriginal conflictPath).ops =
      [⟨.deleteFile conflictPath, false⟩] ∧
    applyOps s (acceptOriginal conflictPath).ops conflictPath = none ∧
    applyOps s (acceptOriginal conflictPath).ops originalPath =
      s originalPath := by
  refine ⟨rfl, ?_, ?_⟩ <;> simp [acceptOriginal, applyOps, applyOp, h]

/-- Fixture: a vault holding an original note and one conflict variant. -/
def vaultExample : VaultState := fun q =>
  if q = "note.md" then some ("original body", ⟨1000, 13⟩)
  else if q = "note.sync-conflict-20240101-113000-ABCDEF.md" then
    some ("variant body", ⟨2000, 12⟩)
  else none

/-- Witness for claim C7 on the concrete vault fixture. -/
theorem acceptOriginal_frame_witness :
    applyOps vaultExample
      (acceptOriginal "note.sync-conflict-20240101-113000-ABCDEF.md").ops
      "note.sync-conflict-20240101-113000-ABCDEF.md" = none ∧
    applyOps vaultExample
      (acceptOriginal "note.sync-conflict-20240101-113000-ABCDEF.md").ops
      "note.md" = vaultExample "note.md" := by
  have h := acceptOriginal_frame vaultExample "note.md"
    "note.sync-conflict-20240101-113000-ABCDEF.md" (by decide)
  exact ⟨h.2.1, h.2.2⟩

/-- A line-level change record of a DiffResult. -/
inductive DiffRecord where
  | unchanged (line : String)
  | added (line : String)
  | removed (line : String)
deriving DecidableEq

/-- Number of added and removed records in an edit script. -/
def changeCount : List DiffRecord → Nat
  | [] => 0
  | .unchanged _ :: rest => changeCount rest
  | .added _ :: rest => changeCount rest + 1
  | .removed _ :: rest => changeCount rest + 1

/-- Modelled from the spec: the diff computation is delegated to the
external jsdiff library (createTwoFilesPatch) whose code is not part of this
repository; the spec asks for a pure, total, deterministic, line-based diff
producing unchanged, added and removed records. diffLines computes a line
edit script: equal heads are kept as unchanged, otherwise the cheaper of
removing the left head first or adding the right head first is taken. -/
def diffLines : List String → List String → List DiffRecord
  | [], bs => bs.map DiffRecord.added
  | a :: as, [] => DiffRecord.removed a :: diffLines as []
  | a :: as, b :: bs =>
    if a = b then
      DiffRecord.unchanged a :: diffLines as bs
    else
      let viaRemove := DiffRecord.removed a :: diffLines as (b :: bs)
      let viaAdd := DiffRecord.added b :: diffLines (a :: as) bs
      if changeCount viaRemove ≤ changeCount viaAdd then viaRemove
      else viaAdd
termination_by as bs => as.length + bs.length
decreasing_by all_goals simp <;> omega

/-- Modelled from the spec: diff of two texts is the line-based edit script
of their lines. -/
def diff (a b : String) : List DiffRecord :=
  diffLines (a.splitOn "\n") (b.splitOn "\n")

/-- Test whether a record is an added record. -/
def isAdded : DiffRecord → Bool
  | .added _ => true
  | _ => false

/-- Test whether a record is a removed record. -/
def isRemoved : DiffRecord → Bool
  | .removed _ => true
  | _ => false

theorem diffLines_self (l : List String) :
    diffLines l l = l.map DiffRecord.unchanged := by
  induction l with
  | nil => simp [diffLines]
  | cons a as ih => simp [diffLines, ih]

/-- Claim C9: diff of a text with itself contains zero added and zero
removed records, for every text including the empty one; diff is a total
function of its two arguments, hence pure and deterministic. -/
theorem diff_self_no_changes (a : String) :
    (diff a a).countP isAdded = 0 ∧ (diff a a).countP isRemoved = 0 := by
  constructor <;>
    simp [diff, diffLines_self, List.countP_eq_zero, isAdded, isRemoved]

/-- ConflictFilesModal.onOpen: the original file is allFiles at index 0
(undefined when the listing is empty). -/
def conflictModalOriginal (allFiles : List TFile) : Option TFile :=
  allFiles.head?

/-- ConflictFilesModal.onOpen: the displayed conflict list is
allFiles.slice from 1 to the length, i.e. everything after the first
element. -/
def conflictModalConflictList (allFiles : List TFile) : List TFile :=
  allFiles.drop 1

/-- Claim C10: for every non-empty listing, the conflict files modal takes
the first element as the original and all remaining elements as the
conflicting variants; this split is purely positional, independent of the
file names, and a one-element listing yields an empty conflict list. -/
theorem conflict_modal_positional_split (allFiles : List TFile)
    (h : allFiles ≠ []) :
    conflictModalOriginal allFiles = some (allFiles.head h) ∧
    conflictModalConflictList allFiles = allFiles.tail ∧
    (allFiles.length = 1 → conflictModalConflictList allFiles = []) := by
  refine ⟨?_, ?_, fun hlen => ?_⟩
  · simp [conflictModalOriginal, List.head?_eq_head h]
  · cases allFiles with
    | nil => exact absurd rfl h
    | cons x xs => simp [conflictModalConflictList]
  · cases allFiles with
    | nil => exact absurd rfl h
    | cons x xs =>
      simp only [List.length_cons, Nat.add_left_eq_self,
        List.length_eq_zero] at hlen
      simp [conflictModalConflictList, hlen]

/-- Fixture: a vault listing with a single file. -/
def singleFileListing : List TFile := [⟨"note.md", "note", ⟨1000, 13⟩⟩]

/-- Witness for claim C10 on the one-element listing. -/
theorem conflict_modal_positional_split_witness :
    conflictModalOriginal singleFileListing =
      some ⟨"note.md", "note", ⟨1000, 13⟩⟩ ∧
    conflictModalConflictList singleFileListing = [] := by
  have h := conflict_modal_positional_split singleFileListing
    (by simp [singleFileListing])
  exact ⟨h.1, h.2.2 rfl⟩

end SyncthingSpec
